import Mathlib

/-!
Verification of the credential-store and login flow of a social-network
client library (the `AuthApi.login` orchestration in `yaylib/api/auth.py`,
together with the session-state collaborator it drives).

The login flow is embedded as a pure function that threads the client
state explicitly and records every observable side effect (key
derivation, store lookup, network dispatch, store writes and deletions)
in a trace, so that claims about "zero network calls", "exactly one
record persisted", and store framing become statements about the trace
and the resulting state.
-/

/-- Modelled from the spec: the symmetric key derived from the account
password; `state.py` (Session State) is not part of the sources, so the
key is represented abstractly by the secret it was derived from. -/
structure EncryptionKey where
  secret : String
deriving DecidableEq, Repr

/-- Modelled from the spec: deterministic key derivation from the
account password. -/
def deriveKey (password : String) : EncryptionKey :=
  ⟨password⟩

/-- One persisted session, as constructed in `auth.py` lines 186-194:
`LocalUser(user_id=..., email=..., device_uuid=..., access_token=...,
refresh_token=...)`. Fields coming from a parsed HTTP response may be
null in Python, hence the `Option` types. -/
structure LocalUser where
  user_id : Option Nat
  email : String
  device_uuid : String
  access_token : Option String
  refresh_token : Option String
deriving DecidableEq, Repr

/-- Modelled from the spec: an `EncryptedRecord` is opaque ciphertext
plus an authentication tag wrapping a serialized `LocalUser`; decryption
must fail verifiably under any key other than the one it was encrypted
with. Abstractly the record remembers the key it was sealed with and
the plaintext it seals; `user_id` and `email` are the plaintext-safe
identifiers used for store lookups. -/
structure EncryptedRecord where
  user_id : Option Nat
  email : String
  enc_key : EncryptionKey
  payload : LocalUser
deriving DecidableEq, Repr

/-- Modelled from the spec: authenticated encryption of a `LocalUser`
under a key. -/
def encryptRecord (k : EncryptionKey) (u : LocalUser) : EncryptedRecord :=
  { user_id := u.user_id, email := u.email, enc_key := k, payload := u }

/-- The `fernet.InvalidToken` failure raised when an `EncryptedRecord`
does not authenticate under the current key. -/
inductive DecryptError where
  | invalidToken
deriving DecidableEq, Repr

/-- Modelled from the spec: decryption with the matching key returns the
sealed `LocalUser`; decryption with any other key fails verifiably. -/
def decryptRecord (k : EncryptionKey) (r : EncryptedRecord) : Except DecryptError LocalUser :=
  if r.enc_key = k then .ok r.payload else .error .invalidToken

/-- Modelled from the spec: the Session State plus Credential Store held
by the client (`self.__client.state` in `auth.py`): the process-wide
encryption key, the persisted encrypted records, and the active user. -/
structure ClientState where
  encryptionKey : Option EncryptionKey
  storage : List EncryptedRecord
  currentUser : Option LocalUser
deriving DecidableEq, Repr

/-- Modelled from the spec: true once a key has been derived in this
process. -/
def ClientState.has_encryption_key (s : ClientState) : Bool :=
  s.encryptionKey.isSome

/-- Modelled from the spec: derives and stores the `EncryptionKey` from
the secret. -/
def ClientState.set_encryption_key (s : ClientState) (secret : String) : ClientState :=
  { s with encryptionKey := some (deriveKey secret) }

/-- Modelled from the spec: scans persisted records and returns the one
matching the email, if present. -/
def ClientState.get_user_by_email (s : ClientState) (email : String) : Option EncryptedRecord :=
  s.storage.find? (fun r => r.email == email)

/-- Modelled from the spec: decrypts a record using the current
`EncryptionKey`; fails with the invalid-token error when no key is set
or the key does not match. -/
def ClientState.decrypt (s : ClientState) (r : EncryptedRecord) : Except DecryptError LocalUser :=
  match s.encryptionKey with
  | some k => decryptRecord k r
  | none => .error .invalidToken

/-- Modelled from the spec: deletes the persisted record for a user id
(the source spells the method `destory`). -/
def ClientState.destory (s : ClientState) (uid : Option Nat) : ClientState :=
  { s with storage := s.storage.filter (fun r => !(r.user_id == uid)) }

/-- Replaces any record keyed by the same user id and prepends the new
record. -/
def upsertRecord (r : EncryptedRecord) (l : List EncryptedRecord) : List EncryptedRecord :=
  r :: l.filter (fun x => !(x.user_id == r.user_id))

/-- Modelled from the spec: encrypts and writes/overwrites the record
for `u.user_id` and makes `u` the active user. When no key is set only
the in-memory active user changes. -/
def ClientState.set_user (s : ClientState) (u : LocalUser) : ClientState :=
  match s.encryptionKey with
  | some k => { s with currentUser := some u, storage := upsertRecord (encryptRecord k u) s.storage }
  | none => { s with currentUser := some u }

/-- Modelled from the spec: flushes buffered state to durable storage;
the logical store contents are unchanged by a flush. -/
def ClientState.save (s : ClientState) : ClientState :=
  s

/-- The client object driving the auth API: session state plus the
device identifier. -/
structure Client where
  state : ClientState
  device_uuid : String
deriving DecidableEq, Repr

/-- The `client.user_id` accessor: the id of the active user. -/
def Client.user_id (c : Client) : Option Nat :=
  c.state.currentUser.bind (fun u => u.user_id)

/-- The `client.access_token` accessor. -/
def Client.access_token (c : Client) : Option String :=
  c.state.currentUser.bind (fun u => u.access_token)

/-- The `client.refresh_token` accessor. -/
def Client.refresh_token (c : Client) : Option String :=
  c.state.currentUser.bind (fun u => u.refresh_token)

/-- Configuration constant of the client (exact value opaque). -/
def API_KEY : String :=
  "api_key"

/-- Configuration constant of the client (exact value opaque). -/
def API_HOST : String :=
  "https://api.yay.space"

/-- The JSON body sent to the login endpoint; `two_fa_code = none`
means the field is absent from the body. -/
structure Payload where
  api_key : String
  email : String
  password : String
  uuid : String
  two_fa_code : Option String
deriving DecidableEq, Repr

/-- Python truthiness of the optional `two_fa_code` string: `None` and
the empty string are falsy. -/
def isTruthyStr : Option String → Bool
  | none => false
  | some s => !s.isEmpty

/-- The payload construction of `auth.py` lines 163-177: the shape with
the 2FA field when `two_fa_code` is truthy, the shape without it when
`two_fa_code is None`; any other value assigns neither branch and the
later use of `payload` raises `UnboundLocalError`, modelled by `none`. -/
def buildPayload (email password uuid : String) (two_fa_code : Option String) : Option Payload :=
  if isTruthyStr two_fa_code then
    some { api_key := API_KEY, email := email, password := password, uuid := uuid, two_fa_code := two_fa_code }
  else if two_fa_code = none then
    some { api_key := API_KEY, email := email, password := password, uuid := uuid, two_fa_code := none }
  else
    none

/-- The typed response of the login endpoint. -/
structure LoginUserResponse where
  user_id : Option Nat
  access_token : Option String
  refresh_token : Option String
deriving DecidableEq, Repr

/-- A transport or API failure raised by the Request Dispatcher. -/
structure ApiError where
  status : Nat
  message : String
deriving DecidableEq, Repr

/-- The failures `login` can surface to its caller. -/
inductive LoginError where
  | invalidToken
  | apiError (e : ApiError)
  | unboundLocalError
deriving DecidableEq, Repr

/-- One observable side effect of a `login` run. -/
inductive Event where
  | setKeyEv (password : String)
  | lookupEv (email : String)
  | networkCall (method : String) (url : String) (payload : Payload)
  | setUserEv (user : LocalUser)
  | destoryEv (user_id : Option Nat)
  | saveEv
deriving DecidableEq, Repr

/-- Whether an event is an invocation of the Request Dispatcher. -/
def Event.isNetworkCall : Event → Bool
  | .networkCall _ _ _ => true
  | _ => false

/-- Whether an event touches the Credential Store contents (a write,
overwrite, deletion or flush). -/
def Event.isStoreEvent : Event → Bool
  | .setUserEv _ => true
  | .destoryEv _ => true
  | .saveEv => true
  | _ => false

/-- Number of dispatcher invocations in a trace. -/
def countNetworkCalls (t : List Event) : Nat :=
  (t.filter Event.isNetworkCall).length

/-- The record stored for a user id, if any. -/
def lookupByUserId (s : ClientState) (uid : Option Nat) : Option EncryptedRecord :=
  s.storage.find? (fun r => r.user_id == uid)

/-- Equality of `Except` values is decidable when it is on both sides. -/
instance {ε α : Type} [DecidableEq ε] [DecidableEq α] : DecidableEq (Except ε α) := fun a b =>
  match a, b with
  | .error x, .error y =>
    if h : x = y then isTrue (by rw [h]) else isFalse (by intro hc; injection hc; contradiction)
  | .ok x, .ok y =>
    if h : x = y then isTrue (by rw [h]) else isFalse (by intro hc; injection hc; contradiction)
  | .error _, .ok _ => isFalse (by intro hc; cases hc)
  | .ok _, .error _ => isFalse (by intro hc; cases hc)

/-- The outcome of a `login` run: the returned response or raised
error, the final client state, and the trace of side effects. -/
structure LoginOutcome where
  result : Except LoginError LoginUserResponse
  state : ClientState
  trace : List Event
deriving DecidableEq, Repr

/-- The state after `auth.py` lines 138-139: derive a key from the
password only when none is set. -/
def stateAfterKeySetup (c : Client) (password : String) : ClientState :=
  if c.state.has_encryption_key then c.state else c.state.set_encryption_key password

/-- The events of `auth.py` lines 138-139. -/
def keySetupEvents (c : Client) (password : String) : List Event :=
  if c.state.has_encryption_key then [] else [Event.setKeyEv password]

/-- The login endpoint URL dispatched at `auth.py` lines 179-184. -/
def loginWithEmailUrl : String :=
  API_HOST ++ "/v3/users/login_with_email"

/-- The `AuthApi.login` flow of `auth.py` lines 126-201, with the
Request Dispatcher passed in as `net` and every side effect recorded in
the trace. -/
def login (c : Client) (net : Payload → Except ApiError LoginUserResponse)
    (email password : String) (two_fa_code : Option String) : LoginOutcome :=
  let s1 := stateAfterKeySetup c password
  let t1 := keySetupEvents c password ++ [Event.lookupEv email]
  match s1.get_user_by_email email with
  | some user =>
    match s1.decrypt user with
    | .ok lu =>
      let s2 := s1.set_user lu
      let c2 : Client := { c with state := s2 }
      { result := .ok { user_id := c2.user_id, access_token := c2.access_token,
                        refresh_token := c2.refresh_token },
        state := s2,
        trace := t1 ++ [Event.setUserEv lu] }
    | .error _ =>
      { result := .error .invalidToken,
        state := s1.destory user.user_id,
        trace := t1 ++ [Event.destoryEv user.user_id] }
  | none =>
    match buildPayload email password c.device_uuid two_fa_code with
    | none =>
      { result := .error .unboundLocalError, state := s1, trace := t1 }
    | some payload =>
      match net payload with
      | .error e =>
        { result := .error (.apiError e), state := s1,
          trace := t1 ++ [Event.networkCall "POST" loginWithEmailUrl payload] }
      | .ok response =>
        let lu : LocalUser :=
          { user_id := response.user_id, email := email, device_uuid := c.device_uuid,
            access_token := response.access_token, refresh_token := response.refresh_token }
        let s2 := (s1.set_user lu).save
        { result := .ok response,
          state := s2,
          trace := t1 ++ [Event.networkCall "POST" loginWithEmailUrl payload,
                          Event.setUserEv lu, Event.saveEv] }

/-! ## Helper lemmas about the store and trace -/

/-- Setting the active user never changes the encryption key. -/
theorem set_user_currentUser (s : ClientState) (u : LocalUser) :
    (s.set_user u).currentUser = some u := by
  cases h : s.encryptionKey <;> simp [ClientState.set_user, h]

/-- Setting the active user never changes the encryption key. -/
theorem set_user_encryptionKey (s : ClientState) (u : LocalUser) :
    (s.set_user u).encryptionKey = s.encryptionKey := by
  cases h : s.encryptionKey <;> simp [ClientState.set_user, h]

/-- Deleting a record never changes the encryption key. -/
theorem destory_encryptionKey (s : ClientState) (uid : Option Nat) :
    (s.destory uid).encryptionKey = s.encryptionKey := by
  simp [ClientState.destory]

/-- Key setup touches only the key, never the persisted records. -/
theorem stateAfterKeySetup_storage (c : Client) (password : String) :
    (stateAfterKeySetup c password).storage = c.state.storage := by
  unfold stateAfterKeySetup
  split <;> simp [ClientState.set_encryption_key]

/-- After filtering out every record with a given user id, a search for
that user id finds nothing. -/
theorem find?_filter_out (l : List EncryptedRecord) (uid : Option Nat) :
    (l.filter (fun r => !(r.user_id == uid))).find? (fun r => r.user_id == uid) = none := by
  induction l with
  | nil => rfl
  | cons a l ih =>
    cases h : (a.user_id == uid) <;> simp [List.filter_cons, h, ih, List.find?_cons]

/-- Dispatcher invocations in a concatenation of traces add up. -/
theorem countNetworkCalls_append (a b : List Event) :
    countNetworkCalls (a ++ b) = countNetworkCalls a + countNetworkCalls b := by
  simp [countNetworkCalls, List.filter_append]

/-- Key setup performs no dispatcher invocation. -/
theorem countNetworkCalls_keySetup (c : Client) (password : String) :
    countNetworkCalls (keySetupEvents c password) = 0 := by
  unfold keySetupEvents
  split <;> rfl

/-- Key setup performs no store operation. -/
theorem keySetup_filter_store (c : Client) (password : String) :
    (keySetupEvents c password).filter Event.isStoreEvent = [] := by
  unfold keySetupEvents
  split <;> rfl

/-- The `LocalUser` constructed at `auth.py` lines 186-194 from a
successful login response, the supplied email and the device id. -/
def responseLocalUser (resp : LoginUserResponse) (email uuid : String) : LocalUser :=
  { user_id := resp.user_id, email := email, device_uuid := uuid,
    access_token := resp.access_token, refresh_token := resp.refresh_token }

/-- Whatever branch `login` takes, the final encryption key is the one
present right after key setup. -/
theorem login_state_key (c : Client) (net : Payload → Except ApiError LoginUserResponse)
    (email password : String) (code : Option String) :
    (login c net email password code).state.encryptionKey =
      (stateAfterKeySetup c password).encryptionKey := by
  simp only [login]
  split
  · split
    · exact set_user_encryptionKey _ _
    · exact destory_encryptionKey _ _
  · split
    · rfl
    · split
      · rfl
      · exact set_user_encryptionKey _ _

/-- Every `login` trace starts with the key-setup events followed by
the store lookup, and no later event is a key derivation. -/
theorem login_trace_decomp (c : Client) (net : Payload → Except ApiError LoginUserResponse)
    (email password : String) (code : Option String) :
    ∃ rest, (login c net email password code).trace =
      (keySetupEvents c password ++ [Event.lookupEv email]) ++ rest ∧
      ∀ pw, Event.setKeyEv pw ∉ rest := by
  simp only [login]
  split
  · split
    · exact ⟨_, rfl, by intro pw; simp⟩
    · exact ⟨_, rfl, by intro pw; simp⟩
  · split
    · exact ⟨[], by simp, by intro pw; simp⟩
    · split
      · exact ⟨_, rfl, by intro pw; simp⟩
      · exact ⟨_, rfl, by intro pw; simp⟩

/-! ## Concrete data used by the closed theorems -/

/-- A sample persisted session. -/
def demoUser : LocalUser :=
  { user_id := some 1, email := "a@x.com", device_uuid := "dev-1",
    access_token := some "T1", refresh_token := some "R1" }

/-- The sample session sealed under the key derived from `pw1`. -/
def demoRecord : EncryptedRecord :=
  encryptRecord (deriveKey "pw1") demoUser

/-- A client whose store holds exactly the sample record and whose key
is not yet derived. -/
def demoClient : Client :=
  { state := { encryptionKey := none, storage := [demoRecord], currentUser := none },
    device_uuid := "dev-1" }

/-- A client with an empty store and no key derived. -/
def demoEmptyClient : Client :=
  { state := { encryptionKey := none, storage := [], currentUser := none },
    device_uuid := "dev-1" }

/-- A sample dispatcher failure. -/
def demoApiError : ApiError :=
  { status := 500, message := "server error" }

/-- A dispatcher that always fails. -/
def demoNetFail : Payload → Except ApiError LoginUserResponse :=
  fun _ => .error demoApiError

/-- A sample successful login response. -/
def demoResponse : LoginUserResponse :=
  { user_id := some 1, access_token := some "T1", refresh_token := some "R1" }

/-- A dispatcher that always succeeds with the sample response. -/
def demoNetOk : Payload → Except ApiError LoginUserResponse :=
  fun _ => .ok demoResponse

/-- The payload `login` builds for the sample credentials without a 2FA
code. -/
def demoPayload : Payload :=
  { api_key := API_KEY, email := "a@x.com", password := "pw1", uuid := "dev-1",
    two_fa_code := none }

/-- A state with the key derived from `pw1` and an empty store. -/
def demoKeyedState : ClientState :=
  { encryptionKey := some (deriveKey "pw1"), storage := [], currentUser := none }

/-! ## Claim theorems -/

/-- Claim C1: whenever the store lookup returns a cached record and it
decrypts under the current key, `login` performs zero dispatcher
invocations and returns a response whose access token, refresh token
and user id echo the cached session values. -/
theorem login_cached_hit_returns_cached_tokens (c : Client)
    (net : Payload → Except ApiError LoginUserResponse)
    (email password : String) (code : Option String) (user : EncryptedRecord) (lu : LocalUser)
    (hfound : (stateAfterKeySetup c password).get_user_by_email email = some user)
    (hdec : (stateAfterKeySetup c password).decrypt user = .ok lu) :
    countNetworkCalls (login c net email password code).trace = 0 ∧
    (login c net email password code).result =
      .ok { user_id := lu.user_id, access_token := lu.access_token,
            refresh_token := lu.refresh_token } := by
  simp only [login, hfound, hdec]
  constructor
  · rw [countNetworkCalls_append, countNetworkCalls_append, countNetworkCalls_keySetup]
    rfl
  · simp [Client.user_id, Client.access_token, Client.refresh_token, set_user_currentUser]

/-- Witness for C1 at the sample client whose store holds the record
for `a@x.com` sealed under the key derived from `pw1`. -/
theorem login_cached_hit_concrete :
    countNetworkCalls (login demoClient demoNetFail "a@x.com" "pw1" none).trace = 0 ∧
    (login demoClient demoNetFail "a@x.com" "pw1" none).result =
      .ok { user_id := demoUser.user_id, access_token := demoUser.access_token,
            refresh_token := demoUser.refresh_token } :=
  login_cached_hit_returns_cached_tokens demoClient demoNetFail "a@x.com" "pw1" none
    demoRecord demoUser (by decide) (by decide)

/-- Claim C2: when a cached record is found but does not decrypt under
the current key, `login` deletes the persisted record for that user id
(it is absent from the store afterwards), propagates the decryption
error to the caller, and never falls through to a network login. -/
theorem login_decrypt_failure_destroys_and_propagates (c : Client)
    (net : Payload → Except ApiError LoginUserResponse)
    (email password : String) (code : Option String) (user : EncryptedRecord)
    (hfound : (stateAfterKeySetup c password).get_user_by_email email = some user)
    (hdec : (stateAfterKeySetup c password).decrypt user = .error .invalidToken) :
    (login c net email password code).result = .error .invalidToken ∧
    lookupByUserId (login c net email password code).state user.user_id = none ∧
    countNetworkCalls (login c net email password code).trace = 0 ∧
    Event.destoryEv user.user_id ∈ (login c net email password code).trace := by
  simp only [login, hfound, hdec]
  refine ⟨by trivial, ?_, ?_, by simp⟩
  · simp [lookupByUserId, ClientState.destory, find?_filter_out]
  · rw [countNetworkCalls_append, countNetworkCalls_append, countNetworkCalls_keySetup]
    rfl

/-- Witness for C2: logging in with `pw2` against the record sealed
under the key derived from `pw1`. -/
theorem login_decrypt_failure_concrete :
    (login demoClient demoNetFail "a@x.com" "pw2" none).result = .error .invalidToken ∧
    lookupByUserId (login demoClient demoNetFail "a@x.com" "pw2" none).state
      demoRecord.user_id = none ∧
    countNetworkCalls (login demoClient demoNetFail "a@x.com" "pw2" none).trace = 0 ∧
    Event.destoryEv demoRecord.user_id ∈
      (login demoClient demoNetFail "a@x.com" "pw2" none).trace :=
  login_decrypt_failure_destroys_and_propagates demoClient demoNetFail "a@x.com" "pw2" none
    demoRecord (by decide) (by decide)

/-- Claim C3, at the failing input: with no cached record for the email
and `two_fa_code` equal to the empty string (falsy but not `None`),
neither branch of `auth.py` lines 163-177 assigns `payload`, so the
dispatch raises `UnboundLocalError` instead of sending one of the two
payload shapes; no dispatcher invocation happens. -/
theorem login_blank_twofa_unbound_payload :
    (login demoEmptyClient demoNetOk "a@x.com" "pw1" (some "")).result =
      .error .unboundLocalError ∧
    countNetworkCalls (login demoEmptyClient demoNetOk "a@x.com" "pw1" (some "")).trace = 0 := by
  decide

/-- Claim C4: with no cached record for the email and a successful
dispatch, `login` performs exactly one dispatcher invocation, builds a
`LocalUser` from the response id and tokens plus the supplied email and
the client device id, calls `set_user` with it and then `save`, returns
the dispatcher response, and the final state is exactly the one with
that single record persisted. -/
theorem login_network_success_persists_once (c : Client)
    (net : Payload → Except ApiError LoginUserResponse)
    (email password : String) (code : Option String) (p : Payload) (resp : LoginUserResponse)
    (hnone : (stateAfterKeySetup c password).get_user_by_email email = none)
    (hp : buildPayload email password c.device_uuid code = some p)
    (hnet : net p = .ok resp) :
    (login c net email password code).result = .ok resp ∧
    countNetworkCalls (login c net email password code).trace = 1 ∧
    ((login c net email password code).trace.filter Event.isStoreEvent) =
      [Event.setUserEv (responseLocalUser resp email c.device_uuid), Event.saveEv] ∧
    (login c net email password code).state =
      ((stateAfterKeySetup c password).set_user
        (responseLocalUser resp email c.device_uuid)).save := by
  simp only [login, hnone, hp, hnet]
  refine ⟨by trivial, ?_, ?_, by rfl⟩
  · rw [countNetworkCalls_append, countNetworkCalls_append, countNetworkCalls_keySetup]
    rfl
  · rw [List.filter_append, List.filter_append, keySetup_filter_store]
    rfl

/-- Witness for C4 at the empty-store client with an always-succeeding
dispatcher. -/
theorem login_network_success_concrete :
    (login demoEmptyClient demoNetOk "a@x.com" "pw1" none).result = .ok demoResponse ∧
    countNetworkCalls (login demoEmptyClient demoNetOk "a@x.com" "pw1" none).trace = 1 ∧
    ((login demoEmptyClient demoNetOk "a@x.com" "pw1" none).trace.filter
      Event.isStoreEvent) =
      [Event.setUserEv (responseLocalUser demoResponse "a@x.com" demoEmptyClient.device_uuid),
       Event.saveEv] ∧
    (login demoEmptyClient demoNetOk "a@x.com" "pw1" none).state =
      ((stateAfterKeySetup demoEmptyClient "pw1").set_user
        (responseLocalUser demoResponse "a@x.com" demoEmptyClient.device_uuid)).save :=
  login_network_success_persists_once demoEmptyClient demoNetOk "a@x.com" "pw1" none
    demoPayload demoResponse (by decide) (by decide) (by rfl)

/-- Claim C5: a dispatcher failure is propagated unchanged, exactly one
dispatcher invocation happens (no retry), and no store operation runs,
leaving the persisted records exactly as they were. -/
theorem login_dispatcher_error_propagates (c : Client)
    (net : Payload → Except ApiError LoginUserResponse)
    (email password : String) (code : Option String) (p : Payload) (e : ApiError)
    (hnone : (stateAfterKeySetup c password).get_user_by_email email = none)
    (hp : buildPayload email password c.device_uuid code = some p)
    (hnet : net p = .error e) :
    (login c net email password code).result = .error (.apiError e) ∧
    (login c net email password code).state.storage = c.state.storage ∧
    countNetworkCalls (login c net email password code).trace = 1 ∧
    ((login c net email password code).trace.filter Event.isStoreEvent) = [] := by
  simp only [login, hnone, hp, hnet]
  refine ⟨by trivial, ?_, ?_, ?_⟩
  · simp [stateAfterKeySetup_storage]
  · rw [countNetworkCalls_append, countNetworkCalls_append, countNetworkCalls_keySetup]
    rfl
  · rw [List.filter_append, List.filter_append, keySetup_filter_store]
    rfl

/-- Witness for C5 at the empty-store client with an always-failing
dispatcher. -/
theorem login_dispatcher_error_concrete :
    (login demoEmptyClient demoNetFail "a@x.com" "pw1" none).result =
      .error (.apiError demoApiError) ∧
    (login demoEmptyClient demoNetFail "a@x.com" "pw1" none).state.storage =
      demoEmptyClient.state.storage ∧
    countNetworkCalls (login demoEmptyClient demoNetFail "a@x.com" "pw1" none).trace = 1 ∧
    ((login demoEmptyClient demoNetFail "a@x.com" "pw1" none).trace.filter
      Event.isStoreEvent) = [] :=
  login_dispatcher_error_propagates demoEmptyClient demoNetFail "a@x.com" "pw1" none
    demoPayload demoApiError (by decide) (by decide) (by rfl)

/-- Counterexample to claim C6 as stated: against the sample client
whose store holds a record sealed under the key derived from `pw1`, a
login with `pw2` modifies the persisted store (the stale record is
deleted) although the dispatcher is never invoked, so the store is not
modified only after a fully successful network response. -/
theorem login_store_deletion_without_network :
    (login demoClient demoNetFail "a@x.com" "pw2" none).state.storage ≠
      demoClient.state.storage ∧
    countNetworkCalls (login demoClient demoNetFail "a@x.com" "pw2" none).trace = 0 := by
  decide

/-- Claim C6 as amended: in every execution of `login` that reaches the
dispatcher (no cached record for the email), no store operation occurs
before the dispatcher invocation, and whenever `login` raises, the
persisted store is left exactly as it was — so a login cancelled while
the network call is in flight leaves the store unmodified. -/
theorem login_network_path_frame (c : Client)
    (net : Payload → Except ApiError LoginUserResponse)
    (email password : String) (code : Option String)
    (hnone : (stateAfterKeySetup c password).get_user_by_email email = none) :
    (((login c net email password code).trace.takeWhile
        (fun ev => !ev.isNetworkCall)).filter Event.isStoreEvent) = [] ∧
    (∀ e, (login c net email password code).result = .error e →
      (login c net email password code).state.storage = c.state.storage) := by
  cases hp : buildPayload email password c.device_uuid code with
  | none =>
    simp only [login, hnone, hp]
    constructor
    · cases hk : c.state.has_encryption_key <;>
        simp [keySetupEvents, hk, List.takeWhile, List.filter, Event.isNetworkCall,
          Event.isStoreEvent]
    · exact fun e _ => stateAfterKeySetup_storage c password
  | some p =>
    cases hn : net p with
    | error e2 =>
      simp only [login, hnone, hp, hn]
      constructor
      · cases hk : c.state.has_encryption_key <;>
          simp [keySetupEvents, hk, List.takeWhile, List.filter, Event.isNetworkCall,
            Event.isStoreEvent]
      · exact fun e _ => stateAfterKeySetup_storage c password
    | ok resp =>
      simp only [login, hnone, hp, hn]
      constructor
      · cases hk : c.state.has_encryption_key <;>
          simp [keySetupEvents, hk, List.takeWhile, List.filter, Event.isNetworkCall,
            Event.isStoreEvent]
      · intro e he
        simp at he

/-- Witness for the amended C6 at the empty-store client with a failing
dispatcher. -/
theorem login_network_path_frame_concrete :
    (((login demoEmptyClient demoNetFail "a@x.com" "pw1" none).trace.takeWhile
        (fun ev => !ev.isNetworkCall)).filter Event.isStoreEvent) = [] ∧
    (∀ e, (login demoEmptyClient demoNetFail "a@x.com" "pw1" none).result = .error e →
      (login demoEmptyClient demoNetFail "a@x.com" "pw1" none).state.storage =
        demoEmptyClient.state.storage) :=
  login_network_path_frame demoEmptyClient demoNetFail "a@x.com" "pw1" none (by decide)

/-- Claim C7: `set_encryption_key password` runs exactly when no key is
set at entry, and when a key is already set the final key is the entry
key, untouched, on every path of `login`. -/
theorem login_sets_key_iff_absent (c : Client)
    (net : Payload → Except ApiError LoginUserResponse)
    (email password : String) (code : Option String) :
    (Event.setKeyEv password ∈ (login c net email password code).trace ↔
      c.state.has_encryption_key = false) ∧
    (login c net email password code).state.encryptionKey =
      (if c.state.has_encryption_key then c.state.encryptionKey
       else some (deriveKey password)) := by
  constructor
  · obtain ⟨rest, hshape, hfree⟩ := login_trace_decomp c net email password code
    rw [hshape]
    cases hk : c.state.has_encryption_key <;>
      simp [List.mem_append, hfree password, keySetupEvents, hk]
  · rw [login_state_key]
    unfold stateAfterKeySetup
    cases hk : c.state.has_encryption_key <;> simp [hk, ClientState.set_encryption_key]

/-- Claim C8: decrypting a record with any key other than the one it
was sealed under always fails with the invalid-token error; a value is
never returned. -/
theorem decrypt_wrong_key_always_fails (k k2 : EncryptionKey) (u : LocalUser)
    (h : k2 ≠ k) :
    decryptRecord k2 (encryptRecord k u) = .error .invalidToken := by
  simp [decryptRecord, encryptRecord]
  intro he
  exact absurd he.symm h

/-- Witness for C8 with the keys derived from `pw1` and `pw2`. -/
theorem decrypt_wrong_key_concrete :
    decryptRecord (deriveKey "pw2") (encryptRecord (deriveKey "pw1") demoUser) =
      .error .invalidToken :=
  decrypt_wrong_key_always_fails (deriveKey "pw1") (deriveKey "pw2") demoUser (by decide)

/-- Claim C9: a record written via `set_user` then `save` is returned
by a later `get_user_by_email` on its email and decrypts under the same
key to a `LocalUser` equal to the one written. -/
theorem set_user_save_roundtrip (s : ClientState) (u : LocalUser) (k : EncryptionKey)
    (hk : s.encryptionKey = some k) :
    ((s.set_user u).save).get_user_by_email u.email = some (encryptRecord k u) ∧
    decryptRecord k (encryptRecord k u) = .ok u := by
  constructor
  · simp [ClientState.save, ClientState.set_user, hk, ClientState.get_user_by_email,
      upsertRecord, List.find?_cons, encryptRecord]
  · simp [decryptRecord, encryptRecord]

/-- Witness for C9 at the keyed sample state. -/
theorem set_user_save_roundtrip_concrete :
    ((demoKeyedState.set_user demoUser).save).get_user_by_email demoUser.email =
      some (encryptRecord (deriveKey "pw1") demoUser) ∧
    decryptRecord (deriveKey "pw1") (encryptRecord (deriveKey "pw1") demoUser) =
      .ok demoUser :=
  set_user_save_roundtrip demoKeyedState demoUser (deriveKey "pw1") (by rfl)

/-- Claim C10: key derivation, when it happens, is the very first step
of `login`, preceding the store lookup and any network call; after
`login` returns or raises, a key is present and equals the entry key or
else the one derived from the supplied password, and any later `login`
call leaves that key unchanged. -/
theorem login_key_first_and_stable (c : Client)
    (net : Payload → Except ApiError LoginUserResponse)
    (email password : String) (code : Option String)
    (net2 : Payload → Except ApiError LoginUserResponse)
    (email2 password2 : String) (code2 : Option String) :
    (login c net email password code).state.encryptionKey =
      some (c.state.encryptionKey.getD (deriveKey password)) ∧
    (login c net email password code).trace.head? =
      some (if c.state.has_encryption_key then Event.lookupEv email
            else Event.setKeyEv password) ∧
    (login { state := (login c net email password code).state, device_uuid := c.device_uuid }
        net2 email2 password2 code2).state.encryptionKey =
      some (c.state.encryptionKey.getD (deriveKey password)) := by
  have h1 : (login c net email password code).state.encryptionKey =
      some (c.state.encryptionKey.getD (deriveKey password)) := by
    rw [login_state_key]
    unfold stateAfterKeySetup
    cases hk : c.state.encryptionKey <;>
      simp [ClientState.has_encryption_key, hk, ClientState.set_encryption_key]
  refine ⟨h1, ?_, ?_⟩
  · obtain ⟨rest, hshape, _⟩ := login_trace_decomp c net email password code
    rw [hshape]
    cases hk : c.state.has_encryption_key <;> simp [keySetupEvents, hk]
  · rw [login_state_key]
    unfold stateAfterKeySetup
    simp [ClientState.has_encryption_key, h1]
